import Mathlib

/-!
Shallow embedding of the lyra-js SDK source (src/src/utils/fetchLiquidityHistory.ts,
which contains the `fetchLiquidityHistory` function and the `Account` class, and the
CLI entry point `optionTradingVolume`).

Modelling conventions:
- `BigNumber` values (ethers fixed-point integers) are modelled as `Int`.
  `BigNumber.sub/mul` are integer subtraction/multiplication; `BigNumber.div`
  truncates toward zero (`Int.tdiv`); `BigNumber.gt(0)` is `0 < x`.
- JS `number` timestamps and durations (all non-negative in the source:
  they come from `uint` contract fields and block timestamps) are `Nat`.
- `number | null` is `Option Nat`; JS truthiness `!!x` of such a value is
  "is non-null and non-zero".
- Thrown exceptions become `Except String` with the thrown message.
- Asynchronous fetches (contract reads, GraphQL queries) are modelled by passing
  the fetched values as explicit arguments to the function that consumes them.
-/

/-- Fixed-point unit (1e18), from `constants/bn` (`UNIT`). -/
def UNIT : Int := 10 ^ 18

/-- The zero BigNumber, from `constants/bn` (`ZERO_BN`). -/
def ZERO_BN : Int := 0

/-- The one BigNumber (1e18 in 18-decimal fixed point), from `constants/bn` (`ONE_BN`). -/
def ONE_BN : Int := 10 ^ 18

/-- Modelled from the spec: `fromBigNumber` (utils/fromBigNumber, not under src/)
converts an 18-decimal fixed-point on-chain integer to a floating-point number,
modelled here as an exact rational. -/
def fromBigNumber (x : Int) : ℚ := (x : ℚ) / ((10 : ℚ) ^ 18)

/-- Protocol-level staking parameters used by `Account.lyraStaking`
(`staking.cooldownPeriod`, `staking.unstakeWindow`). -/
structure LyraStaking where
  cooldownPeriod : Nat
  unstakeWindow : Nat

/-- Result shape of `Account.lyraStaking` (type `AccountLyraStaking`), restricted to
the fields computed in the source body (the passed-through balance fetches are
omitted; `staking` is kept). -/
structure AccountLyraStaking where
  staking : LyraStaking
  isInUnstakeWindow : Bool
  isInCooldown : Bool
  unstakeWindowStartTimestamp : Option Nat
  unstakeWindowEndTimestamp : Option Nat

namespace Account

/-- `const cooldownStartTimestamp = accountCooldown > 0 ? accountCooldown : null`. -/
def cooldownStartTimestamp (accountCooldown : Nat) : Option Nat :=
  if accountCooldown > 0 then some accountCooldown else none

/-- `const cooldownEndTimestamp = accountCooldown > 0 ? accountCooldown + staking.cooldownPeriod : null`. -/
def cooldownEndTimestamp (accountCooldown cooldownPeriod : Nat) : Option Nat :=
  if accountCooldown > 0 then some (accountCooldown + cooldownPeriod) else none

/-- `const unstakeWindowStartTimestamp = cooldownEndTimestamp`. -/
def unstakeWindowStartTimestamp (accountCooldown cooldownPeriod : Nat) : Option Nat :=
  cooldownEndTimestamp accountCooldown cooldownPeriod

/-- `const unstakeWindowEndTimestamp = unstakeWindowStartTimestamp ? unstakeWindowStartTimestamp + staking.unstakeWindow : null`
(JS truthiness: null and 0 are falsy). -/
def unstakeWindowEndTimestamp (accountCooldown cooldownPeriod unstakeWindow : Nat) : Option Nat :=
  match unstakeWindowStartTimestamp accountCooldown cooldownPeriod with
  | some s => if s != 0 then some (s + unstakeWindow) else none
  | none => none

/-- The window test `!!s && !!e && block.timestamp >= s && block.timestamp <= e`
used (twice) in `Account.lyraStaking`, for `s e : number | null`. -/
def windowCheck (s e : Option Nat) (blockTimestamp : Nat) : Bool :=
  match s, e with
  | some s, some e =>
    (s != 0) && (e != 0) && decide (blockTimestamp ≥ s) && decide (blockTimestamp ≤ e)
  | _, _ => false

/-- `const isInUnstakeWindow = !!unstakeWindowStartTimestamp && !!unstakeWindowEndTimestamp && block.timestamp >= unstakeWindowStartTimestamp && block.timestamp <= unstakeWindowEndTimestamp`. -/
def isInUnstakeWindow (accountCooldown cooldownPeriod unstakeWindow blockTimestamp : Nat) : Bool :=
  windowCheck (unstakeWindowStartTimestamp accountCooldown cooldownPeriod)
    (unstakeWindowEndTimestamp accountCooldown cooldownPeriod unstakeWindow) blockTimestamp

/-- `const isInCooldown = !!cooldownStartTimestamp && !!cooldownEndTimestamp && block.timestamp >= cooldownStartTimestamp && block.timestamp <= cooldownEndTimestamp`. -/
def isInCooldown (accountCooldown cooldownPeriod blockTimestamp : Nat) : Bool :=
  windowCheck (cooldownStartTimestamp accountCooldown)
    (cooldownEndTimestamp accountCooldown cooldownPeriod) blockTimestamp

/-- `Account.lyraStaking`: the pure tail of the method, taking the fetched values
(`accountCooldown = stakersCooldowns(address).toNumber()`, the `staking` parameters
and the latest block timestamp) and assembling the returned object. -/
def lyraStaking (accountCooldown : Nat) (staking : LyraStaking) (blockTimestamp : Nat) :
    AccountLyraStaking :=
  { staking := staking
    isInUnstakeWindow :=
      isInUnstakeWindow accountCooldown staking.cooldownPeriod staking.unstakeWindow blockTimestamp
    isInCooldown := isInCooldown accountCooldown staking.cooldownPeriod blockTimestamp
    unstakeWindowStartTimestamp := unstakeWindowStartTimestamp accountCooldown staking.cooldownPeriod
    unstakeWindowEndTimestamp :=
      unstakeWindowEndTimestamp accountCooldown staking.cooldownPeriod staking.unstakeWindow }

end Account

/-- One record of the `marketTotalValueSnapshots` indexer query result
(`MarketTotalValueSnapshotQueryResult`). Numeric fields are modelled as the decoded
integer values (the source applies `BigNumber.from` to each); `timestamp` is a JS
number (a Unix timestamp, hence `Nat`). -/
structure MarketTotalValueSnapshotQueryResult where
  freeLiquidity : Int
  burnableLiquidity : Int
  NAV : Int
  usedCollatLiquidity : Int
  pendingDeltaLiquidity : Int
  usedDeltaLiquidity : Int
  tokenPrice : Int
  timestamp : Nat
  pendingDeposits : Int
  pendingWithdrawals : Int

/-- The output record type of `fetchLiquidityHistory` (`MarketLiquidityHistory`).
`utilization` is a JS floating-point number (result of `fromBigNumber`), modelled as
an exact rational. -/
structure MarketLiquidityHistory where
  freeLiquidity : Int
  burnableLiquidity : Int
  totalQueuedDeposits : Int
  nav : Int
  utilization : ℚ
  totalWithdrawingDeposits : Int
  usedCollatLiquidity : Int
  pendingDeltaLiquidity : Int
  usedDeltaLiquidity : Int
  tokenPrice : Int
  timestamp : Nat
  pendingDeposits : Int
  pendingWithdrawals : Int

/-- The arrow function inside `data.map(...)` in `fetchLiquidityHistory`: decodes one
snapshot into a `MarketLiquidityHistory` record. `BigNumber.div` truncates toward
zero, hence `Int.tdiv`. -/
def toMarketLiquidity (s : MarketTotalValueSnapshotQueryResult) : MarketLiquidityHistory :=
  { freeLiquidity := s.freeLiquidity
    burnableLiquidity := s.burnableLiquidity
    totalQueuedDeposits := ZERO_BN
    nav := s.NAV
    utilization :=
      if 0 < s.NAV then fromBigNumber (Int.tdiv ((s.NAV - s.freeLiquidity) * UNIT) s.NAV)
      else 0
    totalWithdrawingDeposits := ZERO_BN
    usedCollatLiquidity := s.usedCollatLiquidity
    pendingDeltaLiquidity := s.pendingDeltaLiquidity
    usedDeltaLiquidity := s.usedDeltaLiquidity
    tokenPrice := s.tokenPrice
    timestamp := s.timestamp
    pendingDeposits := s.pendingDeposits
    pendingWithdrawals := s.pendingWithdrawals }

/-- `fetchLiquidityHistory`: the pure tail of the function, mapping the list of
snapshots fetched from the indexer to the returned `MarketLiquidityHistory[]`. -/
def fetchLiquidityHistory (data : List MarketTotalValueSnapshotQueryResult) :
    List MarketLiquidityHistory :=
  data.map toMarketLiquidity

/-- Result shape of `Account.liquidityUnrealizedPnl` (`{ pnl, pnlPercent }`). -/
structure AccountLiquidityPnl where
  pnl : Int
  pnlPercent : Int

/-- `AccountStableBalance` from the source. -/
structure AccountStableBalance where
  address : String
  symbol : String
  decimals : Nat
  balance : Int
  allowance : Int
deriving DecidableEq

/-- `AccountBaseBalance` from the source. -/
structure AccountBaseBalance where
  marketAddress : String
  address : String
  symbol : String
  decimals : Nat
  balance : Int
  allowance : Int
deriving DecidableEq

/-- `AccountOptionTokenBalance` from the source. -/
structure AccountOptionTokenBalance where
  marketAddress : String
  address : String
  isApprovedForAll : Bool
deriving DecidableEq

/-- JS `String.prototype.toLowerCase`, modelled character-wise (identifiers here are
ASCII addresses and token symbols). -/
def jsToLower (s : String) : String := String.mk (s.data.map Char.toLower)

/-- The `Deployment` enum from `constants/contracts` (not under src/; the variants
referenced in the source file are `Local`, `Kovan` and `Mainnet`). -/
inductive Deployment where
  | Local
  | Kovan
  | Mainnet
deriving DecidableEq

namespace Account

/-- `Account.liquidityUnrealizedPnl`: the pure tail of the method, taking the fetched
`balance`, `value` and `tokenPrice` of the liquidity token and the output
`avgCostPerToken` of the helper `getAverageCostPerLPToken` (a file not under src/) as
arguments. -/
def liquidityUnrealizedPnl (balance value tokenPrice avgCostPerToken : Int) :
    AccountLiquidityPnl :=
  let avgValue := Int.tdiv (avgCostPerToken * balance) UNIT
  let pnl := value - avgValue
  let pnlPercent :=
    if 0 < avgCostPerToken then Int.tdiv (tokenPrice * UNIT) avgCostPerToken - ONE_BN
    else ZERO_BN
  { pnl := pnl, pnlPercent := pnlPercent }

/-- The predicate of the `stables.find(...)` callback in `Account.balances`. -/
def stableMatches (tokenAddressOrName : String) (stable : AccountStableBalance) : Bool :=
  jsToLower stable.address == jsToLower tokenAddressOrName ||
  jsToLower stable.symbol == jsToLower tokenAddressOrName

/-- The `stable` lookup closure returned by `Account.balances`: first match wins,
`throw new Error` becomes `Except.error`. -/
def stableLookup (stables : List AccountStableBalance) (tokenAddressOrName : String) :
    Except String AccountStableBalance :=
  match stables.find? (stableMatches tokenAddressOrName) with
  | some stable => .ok stable
  | none => .error "Stable token does not exist"

/-- The predicate of the `bases.find(...)` callback in `Account.balances`
(`[marketAddress, address].includes(query)` on lowercased strings, or symbol match). -/
def baseMatches (tokenOrMarketAddressOrName : String) (base : AccountBaseBalance) : Bool :=
  [jsToLower base.marketAddress, jsToLower base.address].contains
    (jsToLower tokenOrMarketAddressOrName) ||
  jsToLower base.symbol == jsToLower tokenOrMarketAddressOrName

/-- The `base` lookup closure returned by `Account.balances`. -/
def baseLookup (bases : List AccountBaseBalance) (tokenOrMarketAddressOrName : String) :
    Except String AccountBaseBalance :=
  match bases.find? (baseMatches tokenOrMarketAddressOrName) with
  | some base => .ok base
  | none => .error "Base token does not exist"

/-- The predicate of the `optionTokens.find(...)` callback in `Account.balances`. -/
def optionTokenMatches (tokenOrMarketAddress : String)
    (optionToken : AccountOptionTokenBalance) : Bool :=
  [jsToLower optionToken.marketAddress, jsToLower optionToken.address].contains
    (jsToLower tokenOrMarketAddress)

/-- The `optionToken` lookup closure returned by `Account.balances`. -/
def optionTokenLookup (optionTokens : List AccountOptionTokenBalance)
    (tokenOrMarketAddress : String) : Except String AccountOptionTokenBalance :=
  match optionTokens.find? (optionTokenMatches tokenOrMarketAddress) with
  | some optionToken => .ok optionToken
  | none => .error "Option token does not exist"

/-- `Account.drip`: the deployment guard and the transaction build, with the result of
`buildTxWithGasEstimate` (a network call) passed as an argument of an abstract
transaction type. -/
def drip {Tx : Type} (deployment : Deployment) (builtTx : Option Tx) : Except String Tx :=
  if !([Deployment.Kovan, Deployment.Local].contains deployment) then
    .error "Faucet is only supported on local and kovan contracts"
  else
    match builtTx with
    | some tx => .ok tx
    | none => .error "Failed to estimate gas for drip transaction"

end Account

/-- The parsed CLI arguments of `optionTradingVolume` (yargs result). -/
structure OptionTradingVolumeArgs where
  market : String
  strikeId : Nat
  isCall : Bool
  timestamp : Option Nat

/-- One yargs flag declaration: name, declared type, single-letter shorthand, and
whether it is required. -/
structure YargsFlag where
  name : String
  typ : String
  shorthand : String
  required : Bool

/-- The flag schema passed to `yargs(argv).options(...)` in the `optionTradingVolume`
CLI entry point. -/
def optionTradingVolumeFlags : List YargsFlag :=
  [⟨"market", "string", "m", true⟩,
   ⟨"strikeId", "number", "s", true⟩,
   ⟨"isCall", "boolean", "i", true⟩,
   ⟨"timestamp", "number", "t", false⟩]

/-- The value printed by the `optionTradingVolume` CLI entry point
(`console.log(optionVolumes.length)`), with the fetch
`option.tradingVolumeHistory({ startTimestamp: args.timestamp })` passed as a
function argument. -/
def optionTradingVolumeOutput {α : Type} (tradingVolumeHistory : Option Nat → List α)
    (args : OptionTradingVolumeArgs) : Nat :=
  (tradingVolumeHistory args.timestamp).length

lemma isInCooldown_iff (accountCooldown cooldownPeriod blockTimestamp : Nat) :
    Account.isInCooldown accountCooldown cooldownPeriod blockTimestamp = true ↔
      0 < accountCooldown ∧ accountCooldown ≤ blockTimestamp ∧
        blockTimestamp ≤ accountCooldown + cooldownPeriod := by
  unfold Account.isInCooldown Account.windowCheck Account.cooldownEndTimestamp
    Account.cooldownStartTimestamp
  rcases Nat.eq_zero_or_pos accountCooldown with hc | hc
  · subst hc; simp
  · have h1 : accountCooldown + cooldownPeriod ≠ 0 := by omega
    have h2 : accountCooldown ≠ 0 := by omega
    simp only [if_pos hc, bne_iff_ne, ne_eq, h1, h2, not_false_eq_true,
      Bool.and_eq_true, decide_eq_true_eq, true_and]
    omega

lemma isInUnstakeWindow_iff (accountCooldown cooldownPeriod unstakeWindow blockTimestamp : Nat) :
    Account.isInUnstakeWindow accountCooldown cooldownPeriod unstakeWindow blockTimestamp = true ↔
      0 < accountCooldown ∧ accountCooldown + cooldownPeriod ≤ blockTimestamp ∧
        blockTimestamp ≤ accountCooldown + cooldownPeriod + unstakeWindow := by
  unfold Account.isInUnstakeWindow Account.windowCheck Account.unstakeWindowEndTimestamp
    Account.unstakeWindowStartTimestamp Account.cooldownEndTimestamp
  rcases Nat.eq_zero_or_pos accountCooldown with hc | hc
  · subst hc; simp
  · have h1 : accountCooldown + cooldownPeriod ≠ 0 := by omega
    simp only [if_pos hc, bne_iff_ne, ne_eq, h1, not_false_eq_true, if_true,
      ite_true, Bool.and_eq_true, decide_eq_true_eq, true_and]
    omega

/-- C1: the booleans returned by `Account.lyraStaking` are true exactly when the block
timestamp lies in the corresponding closed interval: `isInCooldown` iff the recorded
cooldown is positive and `cooldownStartTimestamp ≤ t ≤ cooldownEndTimestamp`
(= cooldown + period), and `isInUnstakeWindow` iff the recorded cooldown is positive
and `unstakeWindowStartTimestamp ≤ t ≤ unstakeWindowEndTimestamp`, both endpoints
included. -/
theorem lyraStaking_window_booleans_iff
    (accountCooldown cooldownPeriod unstakeWindow blockTimestamp : Nat) :
    ((Account.lyraStaking accountCooldown ⟨cooldownPeriod, unstakeWindow⟩
        blockTimestamp).isInCooldown = true ↔
      0 < accountCooldown ∧ accountCooldown ≤ blockTimestamp ∧
        blockTimestamp ≤ accountCooldown + cooldownPeriod) ∧
    ((Account.lyraStaking accountCooldown ⟨cooldownPeriod, unstakeWindow⟩
        blockTimestamp).isInUnstakeWindow = true ↔
      0 < accountCooldown ∧ accountCooldown + cooldownPeriod ≤ blockTimestamp ∧
        blockTimestamp ≤ accountCooldown + cooldownPeriod + unstakeWindow) :=
  ⟨isInCooldown_iff accountCooldown cooldownPeriod blockTimestamp,
   isInUnstakeWindow_iff accountCooldown cooldownPeriod unstakeWindow blockTimestamp⟩

lemma lyraStaking_derivation_aux
    (accountCooldown cooldownPeriod unstakeWindow blockTimestamp : Nat)
    (hc : 0 < accountCooldown) :
    Account.cooldownStartTimestamp accountCooldown = some accountCooldown ∧
    Account.cooldownEndTimestamp accountCooldown cooldownPeriod =
      some (accountCooldown + cooldownPeriod) ∧
    (Account.lyraStaking accountCooldown ⟨cooldownPeriod, unstakeWindow⟩
        blockTimestamp).unstakeWindowStartTimestamp =
      some (accountCooldown + cooldownPeriod) ∧
    (Account.lyraStaking accountCooldown ⟨cooldownPeriod, unstakeWindow⟩
        blockTimestamp).unstakeWindowEndTimestamp =
      some (accountCooldown + cooldownPeriod + unstakeWindow) := by
  have h1 : accountCooldown + cooldownPeriod ≠ 0 := by omega
  unfold Account.lyraStaking Account.unstakeWindowEndTimestamp
    Account.unstakeWindowStartTimestamp Account.cooldownEndTimestamp
    Account.cooldownStartTimestamp
  simp [if_pos hc, h1]

/-- C5: for a positive stored cooldown timestamp `c`, `Account.lyraStaking` derives
`cooldownStartTimestamp = c`, `cooldownEndTimestamp = c + cooldownPeriod`,
`unstakeWindowStartTimestamp = c + cooldownPeriod` and
`unstakeWindowEndTimestamp = c + cooldownPeriod + unstakeWindow`: the unstake window
begins exactly where the cooldown ends. -/
theorem lyraStaking_window_derivation
    (accountCooldown cooldownPeriod unstakeWindow blockTimestamp : Nat)
    (hc : 0 < accountCooldown) :
    Account.cooldownStartTimestamp accountCooldown = some accountCooldown ∧
    Account.cooldownEndTimestamp accountCooldown cooldownPeriod =
      some (accountCooldown + cooldownPeriod) ∧
    (Account.lyraStaking accountCooldown ⟨cooldownPeriod, unstakeWindow⟩
        blockTimestamp).unstakeWindowStartTimestamp =
      some (accountCooldown + cooldownPeriod) ∧
    (Account.lyraStaking accountCooldown ⟨cooldownPeriod, unstakeWindow⟩
        blockTimestamp).unstakeWindowEndTimestamp =
      some (accountCooldown + cooldownPeriod + unstakeWindow) :=
  lyraStaking_derivation_aux accountCooldown cooldownPeriod unstakeWindow blockTimestamp hc

/-- C5 witness: the derivation theorem instantiated at the concrete positive cooldown
timestamp 5, cooldown period 7, unstake window 11 and block timestamp 0. -/
theorem lyraStaking_window_derivation_witness :
    Account.cooldownStartTimestamp 5 = some 5 ∧
    Account.cooldownEndTimestamp 5 7 = some 12 ∧
    (Account.lyraStaking 5 ⟨7, 11⟩ 0).unstakeWindowStartTimestamp = some 12 ∧
    (Account.lyraStaking 5 ⟨7, 11⟩ 0).unstakeWindowEndTimestamp = some 23 :=
  lyraStaking_window_derivation 5 7 11 0 (by decide)

/-- C8: with a stored cooldown timestamp of zero (never entered cooldown),
`Account.lyraStaking` returns both unstake window timestamps `null` and both
booleans `false`, regardless of the staking parameters and the block timestamp. -/
theorem lyraStaking_zero_cooldown (staking : LyraStaking) (blockTimestamp : Nat) :
    (Account.lyraStaking 0 staking blockTimestamp).unstakeWindowStartTimestamp = none ∧
    (Account.lyraStaking 0 staking blockTimestamp).unstakeWindowEndTimestamp = none ∧
    (Account.lyraStaking 0 staking blockTimestamp).isInCooldown = false ∧
    (Account.lyraStaking 0 staking blockTimestamp).isInUnstakeWindow = false :=
  ⟨rfl, rfl, rfl, rfl⟩

/-- C9: the two booleans of `Account.lyraStaking` hold simultaneously only at the
single instant where the block timestamp equals the cooldown end (= recorded cooldown
+ cooldown period), which is also the unstake window start timestamp. -/
theorem lyraStaking_windows_overlap_single_instant
    (accountCooldown cooldownPeriod unstakeWindow blockTimestamp : Nat)
    (hcool : (Account.lyraStaking accountCooldown ⟨cooldownPeriod, unstakeWindow⟩
        blockTimestamp).isInCooldown = true)
    (hwin : (Account.lyraStaking accountCooldown ⟨cooldownPeriod, unstakeWindow⟩
        blockTimestamp).isInUnstakeWindow = true) :
    blockTimestamp = accountCooldown + cooldownPeriod ∧
    (Account.lyraStaking accountCooldown ⟨cooldownPeriod, unstakeWindow⟩
        blockTimestamp).unstakeWindowStartTimestamp = some blockTimestamp := by
  have h1 := (isInCooldown_iff accountCooldown cooldownPeriod blockTimestamp).mp hcool
  have h2 := (isInUnstakeWindow_iff accountCooldown cooldownPeriod unstakeWindow
    blockTimestamp).mp hwin
  have ht : blockTimestamp = accountCooldown + cooldownPeriod := by omega
  refine ⟨ht, ?_⟩
  have h3 := lyraStaking_derivation_aux accountCooldown cooldownPeriod unstakeWindow
    blockTimestamp h1.1
  rw [h3.2.2.1, ht]

/-- C9 witness: with cooldown timestamp 1, period 2, window 3, both booleans are true
at block timestamp 3, and indeed 3 = 1 + 2 is the unstake window start. -/
theorem lyraStaking_windows_overlap_single_instant_witness :
    (3 : Nat) = 1 + 2 ∧
    (Account.lyraStaking 1 ⟨2, 3⟩ 3).unstakeWindowStartTimestamp = some 3 :=
  lyraStaking_windows_overlap_single_instant 1 2 3 3 (by decide) (by decide)

/-- C2: both division sites are guarded: a snapshot whose NAV is not greater than zero
yields utilization 0 in the corresponding `fetchLiquidityHistory` record, and
`Account.liquidityUnrealizedPnl` returns `pnlPercent = ZERO_BN` whenever the average
cost per LP token is not greater than zero. -/
theorem division_by_zero_guards :
    (∀ (data : List MarketTotalValueSnapshotQueryResult) (i : Nat)
        (s : MarketTotalValueSnapshotQueryResult) (r : MarketLiquidityHistory),
        data[i]? = some s → (fetchLiquidityHistory data)[i]? = some r →
        ¬ 0 < s.NAV → r.utilization = 0) ∧
    (∀ balance value tokenPrice avgCostPerToken : Int, ¬ 0 < avgCostPerToken →
        (Account.liquidityUnrealizedPnl balance value tokenPrice
          avgCostPerToken).pnlPercent = ZERO_BN) := by
  constructor
  · intro data i s r hs hr hnav
    have hmap : (fetchLiquidityHistory data)[i]? = some (toMarketLiquidity s) := by
      simp [fetchLiquidityHistory, List.getElem?_map, hs]
    rw [hmap] at hr
    injection hr with hr
    subst hr
    simp [toMarketLiquidity, if_neg hnav]
  · intro balance value tokenPrice avgCostPerToken h
    simp [Account.liquidityUnrealizedPnl, if_neg h]

/-- C2 witness: the guards at concrete inputs (a snapshot with NAV 0, and an average
cost per token of 0). -/
theorem division_by_zero_guards_witness :
    (toMarketLiquidity ⟨1, 2, 0, 3, 4, 5, 6, 7, 8, 9⟩).utilization = 0 ∧
    (Account.liquidityUnrealizedPnl 1 2 3 0).pnlPercent = ZERO_BN :=
  ⟨division_by_zero_guards.1 [⟨1, 2, 0, 3, 4, 5, 6, 7, 8, 9⟩] 0 ⟨1, 2, 0, 3, 4, 5, 6, 7, 8, 9⟩
      (toMarketLiquidity ⟨1, 2, 0, 3, 4, 5, 6, 7, 8, 9⟩) rfl rfl (by decide),
   division_by_zero_guards.2 1 2 3 0 (by decide)⟩

/-- C6: `fetchLiquidityHistory` produces one output record per input snapshot, in
order, and every decoded field of each record equals the corresponding snapshot
field unchanged. -/
theorem fetchLiquidityHistory_decodes (data : List MarketTotalValueSnapshotQueryResult) :
    (fetchLiquidityHistory data).length = data.length ∧
    ∀ (i : Nat) (s : MarketTotalValueSnapshotQueryResult) (r : MarketLiquidityHistory),
      data[i]? = some s → (fetchLiquidityHistory data)[i]? = some r →
      r.timestamp = s.timestamp ∧ r.freeLiquidity = s.freeLiquidity ∧
      r.burnableLiquidity = s.burnableLiquidity ∧ r.nav = s.NAV ∧
      r.usedCollatLiquidity = s.usedCollatLiquidity ∧
      r.pendingDeltaLiquidity = s.pendingDeltaLiquidity ∧
      r.usedDeltaLiquidity = s.usedDeltaLiquidity ∧ r.tokenPrice = s.tokenPrice ∧
      r.pendingDeposits = s.pendingDeposits ∧
      r.pendingWithdrawals = s.pendingWithdrawals := by
  refine ⟨List.length_map data toMarketLiquidity, ?_⟩
  intro i s r hs hr
  have hmap : (fetchLiquidityHistory data)[i]? = some (toMarketLiquidity s) := by
    simp [fetchLiquidityHistory, List.getElem?_map, hs]
  rw [hmap] at hr
  injection hr with hr
  subst hr
  exact ⟨rfl, rfl, rfl, rfl, rfl, rfl, rfl, rfl, rfl, rfl⟩

/-- C6 witness: a singleton snapshot list decodes to one record whose timestamp is the
snapshot's. -/
theorem fetchLiquidityHistory_decodes_witness :
    (fetchLiquidityHistory [⟨1, 2, 3, 4, 5, 6, 7, 8, 9, 10⟩]).length = 1 ∧
    (toMarketLiquidity ⟨1, 2, 3, 4, 5, 6, 7, 8, 9, 10⟩).timestamp = 8 :=
  ⟨(fetchLiquidityHistory_decodes [⟨1, 2, 3, 4, 5, 6, 7, 8, 9, 10⟩]).1,
   ((fetchLiquidityHistory_decodes [⟨1, 2, 3, 4, 5, 6, 7, 8, 9, 10⟩]).2 0
      ⟨1, 2, 3, 4, 5, 6, 7, 8, 9, 10⟩ (toMarketLiquidity ⟨1, 2, 3, 4, 5, 6, 7, 8, 9, 10⟩)
      rfl rfl).1⟩

/-- C10: every record returned by `fetchLiquidityHistory` has `totalQueuedDeposits`
and `totalWithdrawingDeposits` hard-coded to the zero BigNumber, independent of the
snapshot data. -/
theorem fetchLiquidityHistory_zero_queued
    (data : List MarketTotalValueSnapshotQueryResult) (r : MarketLiquidityHistory)
    (hr : r ∈ fetchLiquidityHistory data) :
    r.totalQueuedDeposits = ZERO_BN ∧ r.totalWithdrawingDeposits = ZERO_BN := by
  obtain ⟨s, -, rfl⟩ := List.mem_map.mp hr
  exact ⟨rfl, rfl⟩

/-- C10 witness: the hard-coded zero fields on a concrete nonzero snapshot. -/
theorem fetchLiquidityHistory_zero_queued_witness :
    (toMarketLiquidity ⟨1, 2, 3, 4, 5, 6, 7, 8, 9, 10⟩).totalQueuedDeposits = ZERO_BN ∧
    (toMarketLiquidity ⟨1, 2, 3, 4, 5, 6, 7, 8, 9, 10⟩).totalWithdrawingDeposits = ZERO_BN :=
  fetchLiquidityHistory_zero_queued [⟨1, 2, 3, 4, 5, 6, 7, 8, 9, 10⟩]
    (toMarketLiquidity ⟨1, 2, 3, 4, 5, 6, 7, 8, 9, 10⟩) (by simp [fetchLiquidityHistory])

/-- C4: `Account.drip` throws the static message exactly when the deployment is
neither Kovan nor Local, and on Kovan or Local it proceeds to build (and return) the
faucet transaction. -/
theorem drip_deployment_guard {Tx : Type} (d : Deployment) (tx : Option Tx) :
    (Account.drip d tx =
        Except.error "Faucet is only supported on local and kovan contracts" ↔
      d ≠ Deployment.Kovan ∧ d ≠ Deployment.Local) ∧
    ((d = Deployment.Kovan ∨ d = Deployment.Local) → ∀ t, tx = some t →
      Account.drip d tx = Except.ok t) := by
  constructor
  · constructor
    · intro h
      cases d
      · exfalso
        cases tx <;> simp [Account.drip] at h
      · exfalso
        cases tx <;> simp [Account.drip] at h
      · exact ⟨by decide, by decide⟩
    · rintro ⟨h1, h2⟩
      cases d
      · exact absurd rfl h2
      · exact absurd rfl h1
      · rfl
  · rintro hd t rfl
    rcases hd with rfl | rfl <;> rfl

/-- C4 witness: on Mainnet the faucet guard throws; on Kovan with a built transaction
the transaction is returned. -/
theorem drip_deployment_guard_witness :
    Account.drip Deployment.Mainnet (none : Option Unit) =
      Except.error "Faucet is only supported on local and kovan contracts" ∧
    Account.drip Deployment.Kovan (some ()) = Except.ok () :=
  ⟨(drip_deployment_guard Deployment.Mainnet (none : Option Unit)).1.mpr
      ⟨by decide, by decide⟩,
   (drip_deployment_guard Deployment.Kovan (some ())).2 (Or.inl rfl) () rfl⟩

/-- C7: the `optionTradingVolume` CLI entry point declares exactly four flags —
market (string, required), strikeId (number, required), isCall (boolean, required),
timestamp (number, optional) — and prints only the count of the records returned by
the trading-volume fetch started at the given timestamp. -/
theorem optionTradingVolume_cli :
    optionTradingVolumeFlags.map (fun f => (f.name, f.typ, f.required)) =
      [("market", "string", true), ("strikeId", "number", true),
       ("isCall", "boolean", true), ("timestamp", "number", false)] ∧
    ∀ (α : Type) (tradingVolumeHistory : Option Nat → List α)
      (args : OptionTradingVolumeArgs),
      optionTradingVolumeOutput tradingVolumeHistory args =
        (tradingVolumeHistory args.timestamp).length :=
  ⟨rfl, fun _ _ _ => rfl⟩

/-- C3: the three lookup closures returned by `Account.balances` each return a token
of the corresponding list whose address (or market address, or symbol) matches the
query identifier case-insensitively, throw the static "does not exist" message when
no entry matches, and are insensitive to the case of the query for each token kind. -/
theorem balances_lookup_correct :
    (∀ (stables : List AccountStableBalance) (q : String) (b : AccountStableBalance),
        Account.stableLookup stables q = Except.ok b →
        b ∈ stables ∧
          (jsToLower b.address = jsToLower q ∨ jsToLower b.symbol = jsToLower q)) ∧
    (∀ (stables : List AccountStableBalance) (q : String),
        (∀ b ∈ stables,
          jsToLower b.address ≠ jsToLower q ∧ jsToLower b.symbol ≠ jsToLower q) →
        Account.stableLookup stables q = Except.error "Stable token does not exist") ∧
    (∀ (stables : List AccountStableBalance) (q r : String), jsToLower q = jsToLower r →
        Account.stableLookup stables q = Account.stableLookup stables r) ∧
    (∀ (bases : List AccountBaseBalance) (q : String) (b : AccountBaseBalance),
        Account.baseLookup bases q = Except.ok b →
        b ∈ bases ∧
          (jsToLower b.marketAddress = jsToLower q ∨ jsToLower b.address = jsToLower q ∨
            jsToLower b.symbol = jsToLower q)) ∧
    (∀ (bases : List AccountBaseBalance) (q : String),
        (∀ b ∈ bases,
          jsToLower b.marketAddress ≠ jsToLower q ∧ jsToLower b.address ≠ jsToLower q ∧
            jsToLower b.symbol ≠ jsToLower q) →
        Account.baseLookup bases q = Except.error "Base token does not exist") ∧
    (∀ (bases : List AccountBaseBalance) (q r : String), jsToLower q = jsToLower r →
        Account.baseLookup bases q = Account.baseLookup bases r) ∧
    (∀ (optionTokens : List AccountOptionTokenBalance) (q : String)
        (b : AccountOptionTokenBalance),
        Account.optionTokenLookup optionTokens q = Except.ok b →
        b ∈ optionTokens ∧
          (jsToLower b.marketAddress = jsToLower q ∨ jsToLower b.address = jsToLower q)) ∧
    (∀ (optionTokens : List AccountOptionTokenBalance) (q : String),
        (∀ b ∈ optionTokens,
          jsToLower b.marketAddress ≠ jsToLower q ∧ jsToLower b.address ≠ jsToLower q) →
        Account.optionTokenLookup optionTokens q =
          Except.error "Option token does not exist") ∧
    (∀ (optionTokens : List AccountOptionTokenBalance) (q r : String),
        jsToLower q = jsToLower r →
        Account.optionTokenLookup optionTokens q =
          Account.optionTokenLookup optionTokens r) := by
  refine ⟨?_, ?_, ?_, ?_, ?_, ?_, ?_, ?_, ?_⟩
  · intro ss q b hb
    cases hfind : ss.find? (Account.stableMatches q) with
    | none =>
      unfold Account.stableLookup at hb
      rw [hfind] at hb
      exact Except.noConfusion hb
    | some b2 =>
      unfold Account.stableLookup at hb
      rw [hfind] at hb
      injection hb with hb
      subst hb
      refine ⟨List.mem_of_find?_eq_some hfind, ?_⟩
      have hp := List.find?_some hfind
      simp only [Account.stableMatches, Bool.or_eq_true, beq_iff_eq] at hp
      exact hp
  · intro ss q hno
    have hfind : ss.find? (Account.stableMatches q) = none := by
      rw [List.find?_eq_none]
      intro b hbmem
      have hb := hno b hbmem
      simp only [Account.stableMatches, Bool.or_eq_true, beq_iff_eq]
      push_neg
      exact hb
    unfold Account.stableLookup
    rw [hfind]
  · intro ss q r hqr
    have hm : Account.stableMatches q = Account.stableMatches r := by
      funext b
      unfold Account.stableMatches
      rw [hqr]
    unfold Account.stableLookup
    rw [hm]
  · intro bs q b hb
    cases hfind : bs.find? (Account.baseMatches q) with
    | none =>
      unfold Account.baseLookup at hb
      rw [hfind] at hb
      exact Except.noConfusion hb
    | some b2 =>
      unfold Account.baseLookup at hb
      rw [hfind] at hb
      injection hb with hb
      subst hb
      refine ⟨List.mem_of_find?_eq_some hfind, ?_⟩
      have hp := List.find?_some hfind
      simp [Account.baseMatches] at hp
      rcases hp with (h | h) | h
      · exact Or.inl h.symm
      · exact Or.inr (Or.inl h.symm)
      · exact Or.inr (Or.inr h)
  · intro bs q hno
    have hfind : bs.find? (Account.baseMatches q) = none := by
      rw [List.find?_eq_none]
      intro b hbmem
      have hb := hno b hbmem
      simp [Account.baseMatches]
      push_neg
      exact ⟨⟨fun h => hb.1 h.symm, fun h => hb.2.1 h.symm⟩, hb.2.2⟩
    unfold Account.baseLookup
    rw [hfind]
  · intro bs q r hqr
    have hm : Account.baseMatches q = Account.baseMatches r := by
      funext b
      unfold Account.baseMatches
      rw [hqr]
    unfold Account.baseLookup
    rw [hm]
  · intro os q b hb
    cases hfind : os.find? (Account.optionTokenMatches q) with
    | none =>
      unfold Account.optionTokenLookup at hb
      rw [hfind] at hb
      exact Except.noConfusion hb
    | some b2 =>
      unfold Account.optionTokenLookup at hb
      rw [hfind] at hb
      injection hb with hb
      subst hb
      refine ⟨List.mem_of_find?_eq_some hfind, ?_⟩
      have hp := List.find?_some hfind
      simp [Account.optionTokenMatches] at hp
      rcases hp with h | h
      · exact Or.inl h.symm
      · exact Or.inr h.symm
  · intro os q hno
    have hfind : os.find? (Account.optionTokenMatches q) = none := by
      rw [List.find?_eq_none]
      intro b hbmem
      have hb := hno b hbmem
      simp [Account.optionTokenMatches]
      push_neg
      exact ⟨fun h => hb.1 h.symm, fun h => hb.2 h.symm⟩
    unfold Account.optionTokenLookup
    rw [hfind]
  · intro os q r hqr
    have hm : Account.optionTokenMatches q = Account.optionTokenMatches r := by
      funext b
      unfold Account.optionTokenMatches
      rw [hqr]
    unfold Account.optionTokenLookup
    rw [hm]

/-- C3 witness: a symbol lookup with a different-cased query succeeds on a singleton
list, lookups on empty lists throw the three static messages, and a stable lookup is
unchanged when the query changes case. -/
theorem balances_lookup_correct_witness :
    ((⟨"0xA", "sUSD", 18, 0, 0⟩ : AccountStableBalance) ∈
        ([⟨"0xA", "sUSD", 18, 0, 0⟩] : List AccountStableBalance) ∧
      (jsToLower "0xA" = jsToLower "SUSD" ∨ jsToLower "sUSD" = jsToLower "SUSD")) ∧
    Account.stableLookup [] "sUSD" = Except.error "Stable token does not exist" ∧
    Account.baseLookup [] "sETH" = Except.error "Base token does not exist" ∧
    Account.optionTokenLookup [] "0xAB" = Except.error "Option token does not exist" ∧
    Account.stableLookup [⟨"0xA", "sUSD", 18, 0, 0⟩] "susd" =
      Account.stableLookup [⟨"0xA", "sUSD", 18, 0, 0⟩] "SUSD" :=
  ⟨balances_lookup_correct.1 [⟨"0xA", "sUSD", 18, 0, 0⟩] "SUSD" ⟨"0xA", "sUSD", 18, 0, 0⟩
      rfl,
   balances_lookup_correct.2.1 [] "sUSD" (by simp),
   balances_lookup_correct.2.2.2.2.1 [] "sETH" (by simp),
   balances_lookup_correct.2.2.2.2.2.2.2.1 [] "0xAB" (by simp),
   balances_lookup_correct.2.2.1 [⟨"0xA", "sUSD", 18, 0, 0⟩] "susd" "SUSD" rfl⟩
